import Mathlib

/-!
Verification of the chat widget event handler in
`src/chatbot_web/static/script.js`.

The script wires a send button and an Enter keypress to a handler that
trims the input field, optimistically renders the user's message, clears
the input, POSTs the trimmed text as JSON to `/chat`, awaits the JSON
body of the reply and renders its `response` field as a bot message.

We embed the handler as a pure function over an explicit DOM-like state.
The network is a parameter (`NetBehavior`): the fetch promise may reject,
the body may fail JSON parsing, or a parsed JSON object (modelled as an
association list of string fields) may be delivered.  The handler result
records the final state, the list of issued requests, whether an
unhandled promise rejection escaped, and an ordered event trace.
-/

namespace ChatbotWeb

/-- Whitespace characters stripped by the JavaScript `String.prototype.trim`
(the ASCII subset that matters here: space, tab, newline, carriage return,
vertical tab, form feed, plus NBSP). -/
def isJsWhitespace (c : Char) : Bool :=
  c = ' ' || c = '\t' || c = '\n' || c = '\r' || c = '\x0b' || c = '\x0c' || c = '\xa0'

/-- Model of `message.trim()`: drop leading and trailing whitespace. -/
def jsTrim (s : String) : String :=
  String.mk (((s.data.dropWhile isJsWhitespace).reverse.dropWhile isJsWhitespace).reverse)

/-- A minimal JSON value, enough for `JSON.stringify({ message })`:
a string, or an object with string-valued fields. -/
inductive Json where
  | str : String → Json
  | obj : List (String × String) → Json
deriving DecidableEq, Repr

/-- One rendered log entry: the `sender` string passed to `appendMessage`
and the interpolated `message` text. -/
structure Entry where
  sender : String
  text : String
deriving DecidableEq, Repr

/-- The `innerHTML` assigned to the new message div:
a span labelled `You` for sender `user` and `Bot` otherwise, followed by
the raw, unescaped message text. -/
def Entry.innerHTML (e : Entry) : String :=
  "<span class=\"" ++ e.sender ++ "\">" ++
    (if e.sender = "user" then "You" else "Bot") ++ ":</span> " ++ e.text

/-- DOM-like state: the text input's value and the chat log element
(its entries and scroll geometry). -/
structure DomState where
  inputValue : String
  log : List Entry
  scrollTop : Nat
  scrollHeight : Nat
  clientHeight : Nat
deriving DecidableEq, Repr

/-- The maximum scrollable offset of the log element. -/
def DomState.maxScrollOffset (st : DomState) : Nat :=
  st.scrollHeight - st.clientHeight

/-- DOM semantics of assigning `chatLog.scrollTop = v`: the stored value
is clamped to the maximum scrollable offset. -/
def setScrollTop (st : DomState) (v : Nat) : DomState :=
  { st with scrollTop := min v st.maxScrollOffset }

/-- `appendMessage(sender, message)`: append the rendered div to the log
(the new div contributes `divHeight` to the scroll height) and assign
`chatLog.scrollTop = chatLog.scrollHeight`. -/
def appendMessage (st : DomState) (sender message : String) (divHeight : Nat) :
    DomState :=
  let st1 : DomState :=
    { st with
      log := st.log ++ [⟨sender, message⟩]
      scrollHeight := st.scrollHeight + divHeight }
  setScrollTop st1 st1.scrollHeight

/-- An HTTP request as issued by `fetch`. -/
structure Request where
  path : String
  method : String
  contentType : String
  body : Json
deriving DecidableEq, Repr

/-- The request built for a trimmed message:
`fetch('/chat', { method: 'POST', headers: JSON content type, body:
JSON.stringify({ message }) })`. -/
def chatRequest (message : String) : Request :=
  { path := "/chat"
    method := "POST"
    contentType := "application/json"
    body := Json.obj [("message", message)] }

/-- Behaviour of the network exchange, as observed by the handler:
the fetch promise rejects; the response arrives (with some status) but
its body fails JSON parsing; or a JSON object body is parsed, modelled
as an association list of string-valued fields.  The status code is
carried to record that the handler never inspects it. -/
inductive NetBehavior where
  | connectionError : NetBehavior
  | jsonParseError : Nat → NetBehavior
  | jsonOk : Nat → List (String × String) → NetBehavior
deriving DecidableEq, Repr

/-- JavaScript property lookup `data.response` on a parsed object. -/
def getField : List (String × String) → String → Option String
  | [], _ => none
  | (k, v) :: rest, key => if k = key then some v else getField rest key

/-- Template-literal interpolation of a possibly-missing property:
`undefined` prints as the string `undefined`. -/
def jsInterp : Option String → String
  | some s => s
  | none => "undefined"

/-- Observable steps of one handler run, in execution order. -/
inductive Event where
  | render : String → String → Event
  | clearInput : Event
  | issueRequest : Request → Event
deriving DecidableEq, Repr

/-- Result of one run of the click handler. -/
structure SendResult where
  state : DomState
  requests : List Request
  unhandledRejection : Bool
  trace : List Event
deriving DecidableEq, Repr

/-- The `sendBtn` click handler.  `userDivHeight` and `botDivHeight` are
the layout heights of the message divs that may be appended; `env` is
the behaviour of the one network exchange. -/
def sendMessage (env : NetBehavior) (userDivHeight botDivHeight : Nat)
    (st : DomState) : SendResult :=
  let message := jsTrim st.inputValue
  if message = "" then
    { state := st, requests := [], unhandledRejection := false, trace := [] }
  else
    let st1 := appendMessage st "user" message userDivHeight
    let st2 : DomState := { st1 with inputValue := "" }
    let req := chatRequest message
    let preTrace := [Event.render "user" message, Event.clearInput,
                     Event.issueRequest req]
    match env with
    | NetBehavior.connectionError =>
        { state := st2, requests := [req], unhandledRejection := true
          trace := preTrace }
    | NetBehavior.jsonParseError _ =>
        { state := st2, requests := [req], unhandledRejection := true
          trace := preTrace }
    | NetBehavior.jsonOk _ data =>
        let botText := jsInterp (getField data "response")
        { state := appendMessage st2 "bot" botText botDivHeight
          requests := [req], unhandledRejection := false
          trace := preTrace ++ [Event.render "bot" botText] }

/-- The `userInput` keypress handler: `if (e.key === 'Enter')
sendBtn.click()`, i.e. run the click handler exactly when the pressed
key is Enter, otherwise do nothing. -/
def keypressHandler (key : String) (env : NetBehavior)
    (userDivHeight botDivHeight : Nat) (st : DomState) : SendResult :=
  if key = "Enter" then sendMessage env userDivHeight botDivHeight st
  else { state := st, requests := [], unhandledRejection := false, trace := [] }

/-! Sample states used by witnesses and counterexamples. -/

/-- A state whose input is whitespace only. -/
def stWs : DomState :=
  { inputValue := "   ", log := [], scrollTop := 0, scrollHeight := 0
    clientHeight := 0 }

/-- A state with a nonempty (after trimming) input and a nonempty log. -/
def stHi : DomState :=
  { inputValue := " Hi ", log := [{ sender := "user", text := "old" }]
    scrollTop := 10, scrollHeight := 30, clientHeight := 20 }

/-- A state holding the padded input of the spec's request example. -/
def stHello : DomState :=
  { inputValue := "  Hello  ", log := [], scrollTop := 0, scrollHeight := 0
    clientHeight := 0 }

/-- A state holding exactly the input of the spec's dialogue example. -/
def stHelloExact : DomState :=
  { inputValue := "Hello", log := [], scrollTop := 0, scrollHeight := 0
    clientHeight := 0 }

/-- Helper: every `appendMessage` leaves the scroll position at the
maximum scrollable offset of the updated log element. -/
theorem appendMessage_scroll_eq (st : DomState) (sender text : String)
    (dh : Nat) :
    (appendMessage st sender text dh).scrollTop =
      (appendMessage st sender text dh).maxScrollOffset := by
  simp only [appendMessage, setScrollTop, DomState.maxScrollOffset]
  omega

/-- C1: if the trimmed input is empty, the click handler is a no-op:
the state (log, input field, scroll) is unchanged, no request is issued,
no rejection escapes and no step is taken. -/
theorem sendMessage_empty_input_noop (env : NetBehavior) (uh bh : Nat)
    (st : DomState) (h : jsTrim st.inputValue = "") :
    sendMessage env uh bh st =
      { state := st, requests := [], unhandledRejection := false
        trace := [] } := by
  simp [sendMessage, h]

/-- C1 witness: on a whitespace-only input the handler is a no-op. -/
theorem sendMessage_empty_input_noop_witness :
    jsTrim stWs.inputValue = "" ∧
    sendMessage NetBehavior.connectionError 1 2 stWs =
      { state := stWs, requests := [], unhandledRejection := false
        trace := [] } :=
  ⟨by decide, sendMessage_empty_input_noop _ _ _ _ (by decide)⟩

/-- C2: on nonempty trimmed input, the handler appends exactly one
`user` entry, holding the trimmed text, and clears the input field;
whatever else the run appends carries a different sender. -/
theorem sendMessage_nonempty_one_user_entry (env : NetBehavior)
    (uh bh : Nat) (st : DomState) (h : jsTrim st.inputValue ≠ "") :
    ∃ rest : List Entry,
      (sendMessage env uh bh st).state.log =
        st.log ++ ⟨"user", jsTrim st.inputValue⟩ :: rest ∧
      (∀ e ∈ rest, e.sender ≠ "user") ∧
      (sendMessage env uh bh st).state.inputValue = "" := by
  cases env with
  | connectionError =>
      exact ⟨[], by simp [sendMessage, appendMessage, setScrollTop, h],
             by simp, by simp [sendMessage, appendMessage, setScrollTop, h]⟩
  | jsonParseError s =>
      exact ⟨[], by simp [sendMessage, appendMessage, setScrollTop, h],
             by simp, by simp [sendMessage, appendMessage, setScrollTop, h]⟩
  | jsonOk s data =>
      refine ⟨[⟨"bot", jsInterp (getField data "response")⟩],
              by simp [sendMessage, appendMessage, setScrollTop, h],
              ?_, by simp [sendMessage, appendMessage, setScrollTop, h]⟩
      intro e he
      simp at he
      simp [he]

/-- C2 witness: sending `" Hi "` appends one user entry `"Hi"` and
clears the input. -/
theorem sendMessage_nonempty_one_user_entry_witness :
    jsTrim stHi.inputValue ≠ "" ∧
    ∃ rest : List Entry,
      (sendMessage (NetBehavior.jsonOk 200 [("response", "ok")]) 1 1
          stHi).state.log =
        stHi.log ++ ⟨"user", jsTrim stHi.inputValue⟩ :: rest ∧
      (∀ e ∈ rest, e.sender ≠ "user") ∧
      (sendMessage (NetBehavior.jsonOk 200 [("response", "ok")]) 1 1
          stHi).state.inputValue = "" :=
  ⟨by decide, sendMessage_nonempty_one_user_entry _ _ _ _ (by decide)⟩

/-- C3: on nonempty trimmed input, exactly one request is issued: a POST
to `/chat` with a JSON content type whose body is the JSON object
carrying the trimmed message. -/
theorem sendMessage_single_request (env : NetBehavior) (uh bh : Nat)
    (st : DomState) (h : jsTrim st.inputValue ≠ "") :
    (sendMessage env uh bh st).requests =
      [{ path := "/chat", method := "POST"
         contentType := "application/json"
         body := Json.obj [("message", jsTrim st.inputValue)] }] := by
  cases env <;> simp [sendMessage, chatRequest, h]

/-- C3 witness: input `"  Hello  "` yields one request with body
carrying the trimmed `"Hello"`. -/
theorem sendMessage_single_request_witness :
    jsTrim stHello.inputValue ≠ "" ∧
    (sendMessage NetBehavior.connectionError 1 1 stHello).requests =
      [{ path := "/chat", method := "POST"
         contentType := "application/json"
         body := Json.obj [("message", jsTrim stHello.inputValue)] }] :=
  ⟨by decide, sendMessage_single_request _ _ _ _ (by decide)⟩

/-- C4 counterexample: the claim groups "a response lacking the expected
reply field" with the failures after which no bot message is appended
and the rejection propagates.  On the code, a JSON body without the
`response` field does not raise at all: a bot entry is appended (its
text renders as `undefined`) and no rejection escapes. -/
theorem sendMessage_missing_field_cex :
    ¬ ((sendMessage (NetBehavior.jsonOk 200 [("status", "ok")]) 1 1
          stHi).unhandledRejection = true ∧
       ∀ e ∈ (sendMessage (NetBehavior.jsonOk 200 [("status", "ok")]) 1 1
                stHi).state.log, e.sender ≠ "bot") := by
  decide

/-- C4 amended: if the fetch promise rejects (connection error) or the
body fails JSON parsing, the failure escapes as an unhandled rejection
and nothing beyond the user echo is appended — no bot message and no
error indicator.  (A parseable body lacking the reply field, with any
status, is not such a failure: it appends a bot entry instead.) -/
theorem sendMessage_hard_failure_unhandled (env : NetBehavior)
    (uh bh : Nat) (st : DomState) (h : jsTrim st.inputValue ≠ "")
    (hfail : env = NetBehavior.connectionError ∨
             ∃ s, env = NetBehavior.jsonParseError s) :
    (sendMessage env uh bh st).unhandledRejection = true ∧
    (sendMessage env uh bh st).state.log =
      st.log ++ [⟨"user", jsTrim st.inputValue⟩] := by
  rcases hfail with rfl | ⟨s, rfl⟩ <;>
    simp [sendMessage, appendMessage, setScrollTop, h]

/-- C4 witness: a connection error on sending `" Hi "` leaves an
unhandled rejection and only the user echo in the log. -/
theorem sendMessage_hard_failure_unhandled_witness :
    jsTrim stHi.inputValue ≠ "" ∧
    ((sendMessage NetBehavior.connectionError 1 1 stHi).unhandledRejection
        = true ∧
     (sendMessage NetBehavior.connectionError 1 1 stHi).state.log =
       stHi.log ++ [⟨"user", jsTrim stHi.inputValue⟩]) :=
  ⟨by decide,
   sendMessage_hard_failure_unhandled _ _ _ _ (by decide) (Or.inl rfl)⟩

/-- C5: a response that parses as JSON but lacks the `response` field
still appends a bot entry, whose text is the rendering `undefined` of
the missing field, with no rejection raised. -/
theorem sendMessage_missing_field_renders_undefined (status : Nat)
    (data : List (String × String)) (uh bh : Nat) (st : DomState)
    (h : jsTrim st.inputValue ≠ "")
    (hmiss : getField data "response" = none) :
    (sendMessage (NetBehavior.jsonOk status data) uh bh st).state.log =
      st.log ++ [⟨"user", jsTrim st.inputValue⟩, ⟨"bot", "undefined"⟩] ∧
    (sendMessage (NetBehavior.jsonOk status data) uh bh
        st).unhandledRejection = false := by
  simp [sendMessage, appendMessage, setScrollTop, h, hmiss, jsInterp]

/-- C5 witness: a body `{ "status": "ok" }` yields a bot entry reading
`undefined`. -/
theorem sendMessage_missing_field_renders_undefined_witness :
    jsTrim stHi.inputValue ≠ "" ∧
    getField [("status", "ok")] "response" = none ∧
    ((sendMessage (NetBehavior.jsonOk 200 [("status", "ok")]) 1 1
        stHi).state.log =
      stHi.log ++ [⟨"user", jsTrim stHi.inputValue⟩, ⟨"bot", "undefined"⟩] ∧
     (sendMessage (NetBehavior.jsonOk 200 [("status", "ok")]) 1 1
        stHi).unhandledRejection = false) :=
  ⟨by decide, by decide,
   sendMessage_missing_field_renders_undefined _ _ _ _ _ (by decide)
     (by decide)⟩

/-- C6: after sending input trimming to `"Hello"` and receiving the body
with `response` field `"Hi there"`, the log ends with the user entry
`"Hello"` followed by the bot entry `"Hi there"`. -/
theorem sendMessage_hello_dialogue (status uh bh : Nat) (st : DomState)
    (h : jsTrim st.inputValue = "Hello") :
    (sendMessage (NetBehavior.jsonOk status [("response", "Hi there")])
        uh bh st).state.log =
      st.log ++ [⟨"user", "Hello"⟩, ⟨"bot", "Hi there"⟩] := by
  simp [sendMessage, appendMessage, setScrollTop, h, getField, jsInterp]

/-- C6 witness: the dialogue example on the concrete state. -/
theorem sendMessage_hello_dialogue_witness :
    jsTrim stHelloExact.inputValue = "Hello" ∧
    (sendMessage (NetBehavior.jsonOk 200 [("response", "Hi there")])
        1 1 stHelloExact).state.log =
      stHelloExact.log ++ [⟨"user", "Hello"⟩, ⟨"bot", "Hi there"⟩] :=
  ⟨by decide, sendMessage_hello_dialogue _ _ _ _ (by decide)⟩

/-- C7: `appendMessage` appends exactly one entry, and the entry's
markup labels a `user` sender `You` and a `bot` sender `Bot`, then
interpolates the text raw — unescaped — so markup-significant
characters in the text land in the document markup verbatim. -/
theorem appendMessage_label_and_raw_html (st : DomState)
    (sender text : String) (dh : Nat) :
    (appendMessage st sender text dh).log = st.log ++ [⟨sender, text⟩] ∧
    (Entry.mk "user" text).innerHTML =
      "<span class=\"user\">You:</span> " ++ text ∧
    (Entry.mk "bot" text).innerHTML =
      "<span class=\"bot\">Bot:</span> " ++ text := by
  refine ⟨by simp [appendMessage, setScrollTop], rfl, rfl⟩

/-- C8: after every append — and hence after every send on nonempty
trimmed input, whatever the network outcome — the log's scroll position
equals its maximum scrollable offset. -/
theorem scroll_at_bottom_after_append (st : DomState)
    (sender text : String) (dh : Nat) :
    (appendMessage st sender text dh).scrollTop =
      (appendMessage st sender text dh).maxScrollOffset ∧
    ∀ (env : NetBehavior) (uh bh : Nat) (st2 : DomState),
      jsTrim st2.inputValue ≠ "" →
      (sendMessage env uh bh st2).state.scrollTop =
        (sendMessage env uh bh st2).state.maxScrollOffset := by
  refine ⟨appendMessage_scroll_eq st sender text dh, ?_⟩
  intro env uh bh st2 h
  cases env with
  | connectionError =>
      simpa [sendMessage, h, DomState.maxScrollOffset] using
        appendMessage_scroll_eq st2 "user" (jsTrim st2.inputValue) uh
  | jsonParseError s =>
      simpa [sendMessage, h, DomState.maxScrollOffset] using
        appendMessage_scroll_eq st2 "user" (jsTrim st2.inputValue) uh
  | jsonOk s data =>
      simp only [sendMessage, h]
      simp only [ne_eq, h, not_false_iff, if_neg]
      exact appendMessage_scroll_eq _ "bot" _ bh

/-- C8 witness: the scroll invariant at a concrete append and a concrete
failed send. -/
theorem scroll_at_bottom_after_append_witness :
    (appendMessage stHi "user" "x" 5).scrollTop =
      (appendMessage stHi "user" "x" 5).maxScrollOffset ∧
    jsTrim stHi.inputValue ≠ "" ∧
    (sendMessage NetBehavior.connectionError 1 1 stHi).state.scrollTop =
      (sendMessage NetBehavior.connectionError 1 1
          stHi).state.maxScrollOffset :=
  ⟨(scroll_at_bottom_after_append stHi "user" "x" 5).1, by decide,
   (scroll_at_bottom_after_append stHi "user" "x" 5).2
     NetBehavior.connectionError 1 1 stHi (by decide)⟩

/-- C9: an Enter keypress in the input triggers exactly the click
handler: for every state and network behaviour the two runs coincide,
in final state, requests, rejection and trace alike. -/
theorem enter_keypress_equiv_click (env : NetBehavior) (uh bh : Nat)
    (st : DomState) :
    keypressHandler "Enter" env uh bh st = sendMessage env uh bh st := by
  simp [keypressHandler]

/-- C10: on nonempty trimmed input the run starts, in order, with the
user echo render, then the synchronous input clear, then the one request
issue — in every network outcome; so the request is never issued before
the echo, and the input is cleared before the request. -/
theorem send_echo_then_clear_then_request (env : NetBehavior)
    (uh bh : Nat) (st : DomState) (h : jsTrim st.inputValue ≠ "") :
    (sendMessage env uh bh st).trace.take 3 =
      [Event.render "user" (jsTrim st.inputValue), Event.clearInput,
       Event.issueRequest (chatRequest (jsTrim st.inputValue))] := by
  cases env <;> simp [sendMessage, h]

/-- C10 witness: the ordered prefix on a concrete successful send. -/
theorem send_echo_then_clear_then_request_witness :
    jsTrim stHi.inputValue ≠ "" ∧
    (sendMessage (NetBehavior.jsonOk 200 [("response", "ok")]) 1 1
        stHi).trace.take 3 =
      [Event.render "user" (jsTrim stHi.inputValue), Event.clearInput,
       Event.issueRequest (chatRequest (jsTrim stHi.inputValue))] :=
  ⟨by decide, send_echo_then_clear_then_request _ _ _ _ (by decide)⟩

end ChatbotWeb
